import Mathlib

/-
Verification of the trello-back kanban board core: a shallow embedding of the
position allocator (Column.save / Task.save), the reorder engine
(ColumnViewSet.move / TaskViewSet.move), the delete handlers
(perform_destroy), the activity log appends, and the label-attachment loops
of TaskSerializer.create / TaskSerializer.update, together with theorems
settling the specification claims about them.

Conventions of the embedding:
- Database rows become list entries; a bulk UPDATE over a queryset filter
  becomes a map that rewrites exactly the entries matching the filter.
- Primary-key lookups (get_object, Column.objects.get) become List.find? on
  the id field.
- Request integers (DRF IntegerField) are Int; serializer validation
  (min_value=0, validate_column_id) is checked before any state change, as in
  the views.
- Positions stored in rows are Nat (Django PositiveIntegerField).
-/

namespace TrelloBack

/-- A Column row: id, title, owning board id, and position within the board. -/
structure Col where
  id : Nat
  title : String
  board : Nat
  pos : Nat
deriving DecidableEq

/-- A Task row: id, title, owning column id, and position within the column. -/
structure TaskRec where
  id : Nat
  title : String
  column : Nat
  pos : Nat
deriving DecidableEq

/-- Outcome of a move request: HTTP 200, HTTP 400 (serializer errors), or
HTTP 404 (get_object / Column.DoesNotExist). -/
inductive MoveOutcome where
  | ok
  | validationError
  | notFound
deriving DecidableEq

/-- An ActivityLog row restricted to the fields the move/delete handlers
write into `details`: the action string, the optional item id, the item
title, optional source and destination container titles, and optional
from/to positions. A field is `none` when the corresponding handler does not
put that key into `details`. -/
structure LogEntry where
  action : String
  itemId : Option Nat
  itemTitle : String
  fromContainer : Option String
  toContainer : Option String
  fromPos : Option Nat
  toPos : Option Nat
deriving DecidableEq

/-- Maximum of a list of positions, `none` when empty: the value of
`aggregate(Max('position'))['position__max']`. -/
def maxPos? : List Nat → Option Nat
  | [] => none
  | p :: ps =>
    some (match maxPos? ps with
      | none => p
      | some m => max p m)

/-- Python `max_position or -1`: both `None` and `0` are falsy, so both give
`-1`; any other value passes through. -/
def pyOrNeg1 : Option Nat → Int
  | none => -1
  | some v => if v = 0 then -1 else (v : Int)

/-- Position assigned by `Column.save` / `Task.save` at creation:
`(max_position or -1) + 1` over the container's sibling positions. -/
def allocSavePos (siblingPositions : List Nat) : Nat :=
  (pyOrNeg1 (maxPos? siblingPositions) + 1).toNat

/-- Modelled from the spec: `allocate_append_position(container) -> int`
returns `max(existing sibling positions) + 1`, or `0` if the container
currently has no siblings. This is the spec's contract, kept separate from
`allocSavePos` (the code's behavior) for comparison. -/
def allocate_append_position (siblingPositions : List Nat) : Nat :=
  match maxPos? siblingPositions with
  | none => 0
  | some m => m + 1

/-- Task creation (TaskViewSet.perform_create calling Task.save): the new
row is appended with the position computed by `allocSavePos` over the
positions of the tasks already in the target column. -/
def taskCreate (tasks : List TaskRec) (newId : Nat) (title : String) (columnId : Nat) :
    List TaskRec :=
  let pos := allocSavePos ((tasks.filter (fun t => t.column == columnId)).map (fun t => t.pos))
  tasks ++ [⟨newId, title, columnId, pos⟩]

/-- Column creation (ColumnViewSet.perform_create calling Column.save). -/
def columnCreate (cols : List Col) (newId : Nat) (title : String) (boardId : Nat) :
    List Col :=
  let pos := allocSavePos ((cols.filter (fun c => c.board == boardId)).map (fun c => c.pos))
  cols ++ [⟨newId, title, boardId, pos⟩]

/-- Result of ColumnViewSet.move: outcome, column table, appended log rows. -/
structure ColMoveResult where
  outcome : MoveOutcome
  cols : List Col
  log : List LogEntry
deriving DecidableEq

/-- Body of ColumnViewSet.move once get_object found `column`. The
serializer only checks `position >= 0`; then the two bulk updates and
`column.save()` run, and the log entry is written with
`from_position: column.position` read after the assignment
`column.position = new_position`. -/
def columnMoveFound (cols : List Col) (column : Col) (colId : Nat) (reqPos : Int) :
    ColMoveResult :=
  if reqPos < 0 then ⟨.validationError, cols, []⟩
  else
    let newPosition : Nat := reqPos.toNat
    let shifted :=
      if newPosition < column.pos then
        cols.map (fun c =>
          if c.board = column.board ∧ newPosition ≤ c.pos ∧ c.pos < column.pos then
            { c with pos := c.pos + 1 } else c)
      else
        cols.map (fun c =>
          if c.board = column.board ∧ column.pos < c.pos ∧ c.pos ≤ newPosition then
            { c with pos := c.pos - 1 } else c)
    let saved := shifted.map (fun c => if c.id = colId then { c with pos := newPosition } else c)
    ⟨.ok, saved,
      [⟨"move_column", none, column.title, none, none, some newPosition, some newPosition⟩]⟩

/-- ColumnViewSet.move: get_object, then `columnMoveFound`. -/
def columnMove (cols : List Col) (colId : Nat) (reqPos : Int) : ColMoveResult :=
  match cols.find? (fun c => c.id == colId) with
  | none => ⟨.notFound, cols, []⟩
  | some column => columnMoveFound cols column colId reqPos

/-- Result of TaskViewSet.move and of the delete handlers on tasks. -/
structure TaskMoveResult where
  outcome : MoveOutcome
  tasks : List TaskRec
  log : List LogEntry
deriving DecidableEq

/-- Title of the column with the given id (`old_column.title` in the log
payload; the foreign key always resolves in the database). -/
def columnTitleOf (cols : List Col) (cid : Nat) : String :=
  match cols.find? (fun c => c.id == cid) with
  | some c => c.title
  | none => ""

/-- Body of TaskViewSet.move once the task and the destination column are
resolved. `new_position = serializer position + 1` (the source off-by-one).
Cross-column branch: close the gap in the old column, open one in the new
column at `new_position`, re-parent, and append one `move_task` log entry.
Same-column branch: shift between the two indices and save; no log entry is
written in this branch. -/
def taskMoveWithColumn (cols : List Col) (tasks : List TaskRec) (task : TaskRec)
    (newColumn : Col) (taskId : Nat) (reqPos : Int) : TaskMoveResult :=
  let newPosition : Nat := reqPos.toNat + 1
  let oldColumn := task.column
  let oldPosition := task.pos
  if oldColumn ≠ newColumn.id then
    let afterOld := tasks.map (fun t =>
      if t.column = oldColumn ∧ oldPosition < t.pos then { t with pos := t.pos - 1 } else t)
    let afterNew := afterOld.map (fun t =>
      if t.column = newColumn.id ∧ newPosition ≤ t.pos then { t with pos := t.pos + 1 } else t)
    let saved := afterNew.map (fun t =>
      if t.id = taskId then { t with column := newColumn.id, pos := newPosition } else t)
    ⟨.ok, saved,
      [⟨"move_task", some task.id, task.title, some (columnTitleOf cols oldColumn),
        some newColumn.title, some oldPosition, some newPosition⟩]⟩
  else
    let shifted :=
      if newPosition < oldPosition then
        tasks.map (fun t =>
          if t.column = oldColumn ∧ newPosition ≤ t.pos ∧ t.pos < oldPosition then
            { t with pos := t.pos + 1 } else t)
      else
        tasks.map (fun t =>
          if t.column = oldColumn ∧ oldPosition < t.pos ∧ t.pos ≤ newPosition then
            { t with pos := t.pos - 1 } else t)
    let saved := shifted.map (fun t => if t.id = taskId then { t with pos := newPosition } else t)
    ⟨.ok, saved, []⟩

/-- TaskViewSet.move after get_object found the task: TaskMoveSerializer
validates `position >= 0` and that the column id exists (its failure is a
serializer error, HTTP 400); sequentially the later
`Column.objects.get` then cannot fail, so the view's 404 branch is dead. -/
def taskMoveFound (cols : List Col) (tasks : List TaskRec) (task : TaskRec)
    (taskId columnId : Nat) (reqPos : Int) : TaskMoveResult :=
  if reqPos < 0 then ⟨.validationError, tasks, []⟩
  else
    match cols.find? (fun c => c.id == columnId) with
    | none => ⟨.validationError, tasks, []⟩
    | some newColumn => taskMoveWithColumn cols tasks task newColumn taskId reqPos

/-- TaskViewSet.move: get_object, then `taskMoveFound`. -/
def taskMove (cols : List Col) (tasks : List TaskRec) (taskId columnId : Nat)
    (reqPos : Int) : TaskMoveResult :=
  match tasks.find? (fun t => t.id == taskId) with
  | none => ⟨.notFound, tasks, []⟩
  | some task => taskMoveFound cols tasks task taskId columnId reqPos

/-- TaskViewSet.perform_destroy: append one delete_task log row, then delete
the row. No position of any other task is touched. -/
def taskDestroy (tasks : List TaskRec) (taskId : Nat) : TaskMoveResult :=
  match tasks.find? (fun t => t.id == taskId) with
  | none => ⟨.notFound, tasks, []⟩
  | some task =>
    ⟨.ok, tasks.filter (fun t => t.id != taskId),
      [⟨"delete_task", some task.id, task.title, none, none, none, none⟩]⟩

/-- Result of ColumnViewSet.perform_destroy. -/
structure ColumnDestroyResult where
  outcome : MoveOutcome
  cols : List Col
  tasks : List TaskRec
  log : List LogEntry
deriving DecidableEq

/-- ColumnViewSet.perform_destroy: append one delete_column log row, then
delete the column; the CASCADE on Task.column removes its tasks. No other
position is touched. -/
def columnDestroy (cols : List Col) (tasks : List TaskRec) (colId : Nat) :
    ColumnDestroyResult :=
  match cols.find? (fun c => c.id == colId) with
  | none => ⟨.notFound, cols, tasks, []⟩
  | some column =>
    ⟨.ok, cols.filter (fun c => c.id != colId), tasks.filter (fun t => t.column != colId),
      [⟨"delete_column", none, column.title, none, none, none, none⟩]⟩

/-- `Label.objects.get(id=label_id)` over the set of existing label ids:
`some` when the label exists, `none` for Label.DoesNotExist. -/
def labelGet (labels : List Nat) (lid : Nat) : Option Nat :=
  if lid ∈ labels then some lid else none

/-- `TaskLabel.objects.create(task=task, label=label)` for one task: the
TaskLabel table has unique_together on (task, label), so creating a link
that already exists raises IntegrityError (`none`); otherwise the link row
is appended. -/
def taskLabelCreate (attached : List Nat) (l : Nat) : Option (List Nat) :=
  if l ∈ attached then none else some (attached ++ [l])

/-- The label-attachment loop of TaskSerializer.create / update: for each
requested id, try to fetch the label and create the TaskLabel link. Only
Label.DoesNotExist is caught (continue with the next id); an IntegrityError
from `taskLabelCreate` — a repeated existing id — is uncaught and aborts the
operation (`none`). -/
def attachLabelsLoop (labels : List Nat) : List Nat → List Nat → Option (List Nat)
  | [], acc => some acc
  | lid :: rest, acc =>
    match labelGet labels lid with
    | some l =>
      match taskLabelCreate acc l with
      | some acc2 => attachLabelsLoop labels rest acc2
      | none => none
    | none => attachLabelsLoop labels rest acc

/-- TaskSerializer.create: the TaskLabel links created for `label_ids` on
the freshly created task (which starts with no links); `none` when the loop
raises an uncaught IntegrityError. -/
def taskCreateLabels (labels labelIds : List Nat) : Option (List Nat) :=
  attachLabelsLoop labels labelIds []

/-- TaskSerializer.update: when `label_ids` is supplied, all existing links
of the task are deleted first and the same loop attaches the new ones from
scratch; when absent, links are kept as they are and the update succeeds. -/
def taskUpdateLabels (labels : List Nat) (current : List Nat)
    (labelIds : Option (List Nat)) : Option (List Nat) :=
  match labelIds with
  | none => some current
  | some ids => attachLabelsLoop labels ids []

/-- Density invariant of the spec: positions are exactly the set
0..n-1 with no repeats. -/
def densePositions (ps : List Nat) : Prop :=
  ps.Nodup ∧ ∀ p ∈ ps, p < ps.length

instance (ps : List Nat) : Decidable (densePositions ps) := by
  unfold densePositions
  infer_instance

end TrelloBack

namespace TrelloBack

/-- C1: counterexample. With column C1 (id 1) holding T1@0, T2@1, T3@2 and
column C2 (id 2) holding T4@0, moving T2 (id 2) to column 2 with requested
position 0 succeeds, but the claimed destination state (T2 at position 0 and
T4 at position 1) does not hold: the view adds 1 to the requested position,
so no destination sibling shifts and T2 lands at position 1. -/
theorem C1_counterexample :
    (taskMove [⟨1, "C1", 0, 0⟩, ⟨2, "C2", 0, 1⟩]
      [⟨1, "T1", 1, 0⟩, ⟨2, "T2", 1, 1⟩, ⟨3, "T3", 1, 2⟩, ⟨4, "T4", 2, 0⟩]
      2 2 0).outcome = MoveOutcome.ok ∧
    ¬ ((⟨2, "T2", 2, 0⟩ : TaskRec) ∈
        (taskMove [⟨1, "C1", 0, 0⟩, ⟨2, "C2", 0, 1⟩]
          [⟨1, "T1", 1, 0⟩, ⟨2, "T2", 1, 1⟩, ⟨3, "T3", 1, 2⟩, ⟨4, "T4", 2, 0⟩]
          2 2 0).tasks ∧
       (⟨4, "T4", 2, 1⟩ : TaskRec) ∈
        (taskMove [⟨1, "C1", 0, 0⟩, ⟨2, "C2", 0, 1⟩]
          [⟨1, "T1", 1, 0⟩, ⟨2, "T2", 1, 1⟩, ⟨3, "T3", 1, 2⟩, ⟨4, "T4", 2, 0⟩]
          2 2 0).tasks) := by
  decide

/-- C1 (amended): the same move succeeds and leaves C1 with T1@0 and T3@1 as
claimed, but in C2 the sibling T4 stays at position 0 and the moved task T2
takes position 1, because the view uses requested position + 1 as the
destination index for cross-column task moves. -/
theorem C1_cross_container_move :
    taskMove [⟨1, "C1", 0, 0⟩, ⟨2, "C2", 0, 1⟩]
      [⟨1, "T1", 1, 0⟩, ⟨2, "T2", 1, 1⟩, ⟨3, "T3", 1, 2⟩, ⟨4, "T4", 2, 0⟩] 2 2 0 =
    ⟨MoveOutcome.ok,
     [⟨1, "T1", 1, 0⟩, ⟨2, "T2", 2, 1⟩, ⟨3, "T3", 1, 1⟩, ⟨4, "T4", 2, 0⟩],
     [⟨"move_task", some 2, "T2", some "C1", some "C2", some 1, some 1⟩]⟩ := by
  decide

/-- C2: the claim is the intended allocator contract, but the code's
`(max_position or -1) + 1` treats a maximum of 0 as falsy: with a single
sibling at position 0, the new task is created at position 0 (a duplicate),
while the spec's allocate_append_position gives 1. -/
theorem C2_create_position_bug :
    taskCreate [⟨1, "T1", 10, 0⟩] 2 "T2" 10 = [⟨1, "T1", 10, 0⟩, ⟨2, "T2", 10, 0⟩] ∧
    allocSavePos [0] = 0 ∧
    allocate_append_position [0] = 1 := by
  decide

/-- C3: the density invariant fails on the code: creating two tasks in an
initially empty column leaves both at position 0 (the second create sees
max position 0, which `or` treats as falsy), so the column's positions are
[0, 0], not the set containing 0 and 1. -/
theorem C3_density_invariant_fails :
    ((taskCreate (taskCreate [] 1 "T1" 10) 2 "T2" 10).map (fun t => t.pos)) = [0, 0] ∧
    ¬ densePositions [0, 0] := by
  decide

/-- C5: counterexample. With two columns at positions 0 and 1, a request to
move the first column to position 5 (beyond the sibling count) is not
rejected: the serializer only checks non-negativity, so the move succeeds
and mutates positions (the sibling drops to 0 and the moved column is
written at 5). -/
theorem C5_counterexample :
    (columnMove [⟨1, "A", 0, 0⟩, ⟨2, "B", 0, 1⟩] 1 5).outcome = MoveOutcome.ok ∧
    (columnMove [⟨1, "A", 0, 0⟩, ⟨2, "B", 0, 1⟩] 1 5).cols =
      [⟨1, "A", 0, 5⟩, ⟨2, "B", 0, 0⟩] := by
  decide

/-- C6: counterexample. A successful same-column task move (task 1 moved
within column 1) appends no activity-log entry at all: the same-column
branch of TaskViewSet.move has no ActivityLog write. -/
theorem C6_counterexample :
    (taskMove [⟨1, "A", 0, 0⟩] [⟨1, "T1", 1, 0⟩, ⟨2, "T2", 1, 1⟩] 1 1 0).outcome =
      MoveOutcome.ok ∧
    (taskMove [⟨1, "A", 0, 0⟩] [⟨1, "T1", 1, 0⟩, ⟨2, "T2", 1, 1⟩] 1 1 0).log = [] := by
  decide

/-- C7: counterexample. A task-move request naming column id 99, which does
not exist, is answered by the serializer's column-existence check, a
validation error (HTTP 400), not by the view's not-found branch (HTTP 404),
which is unreachable after validation; no task is mutated. -/
theorem C7_counterexample :
    (taskMove [⟨1, "A", 0, 0⟩] [⟨1, "T1", 1, 0⟩] 1 99 0).outcome =
      MoveOutcome.validationError ∧
    (taskMove [⟨1, "A", 0, 0⟩] [⟨1, "T1", 1, 0⟩] 1 99 0).outcome ≠ MoveOutcome.notFound ∧
    (taskMove [⟨1, "A", 0, 0⟩] [⟨1, "T1", 1, 0⟩] 1 99 0).tasks = [⟨1, "T1", 1, 0⟩] := by
  decide

/-- C10: counterexample. With label 1 existing, label_ids = [1, 1] repeats
an existing id: the first iteration creates the TaskLabel link, the second
violates the unique_together (task, label) constraint, and the resulting
IntegrityError is not caught (only Label.DoesNotExist is), so neither the
create nor the update succeeds — refuting the claim that the operation
still succeeds for every supplied list. -/
theorem C10_counterexample :
    taskCreateLabels [1] [1, 1] = none ∧
    taskUpdateLabels [1] [] (some [1, 1]) = none := by
  decide

/-- Unrolling the label-attachment loop: when the existing ids among the
requested ones are pairwise distinct and none is already attached, the loop
succeeds and returns the accumulator followed by exactly the requested ids
that exist, in request order. -/
theorem attachLabelsLoop_eq (labels : List Nat) :
    ∀ ids acc, (ids.filter (fun l => decide (l ∈ labels))).Nodup →
      (∀ l ∈ ids.filter (fun l => decide (l ∈ labels)), l ∉ acc) →
      attachLabelsLoop labels ids acc =
        some (acc ++ ids.filter (fun l => decide (l ∈ labels)))
  | [], acc, _, _ => by simp [attachLabelsLoop]
  | lid :: rest, acc, hnd, hdisj => by
    by_cases h : lid ∈ labels
    · have hfc : (lid :: rest).filter (fun l => decide (l ∈ labels)) =
          lid :: rest.filter (fun l => decide (l ∈ labels)) := by
        simp [List.filter_cons, h]
      rw [hfc] at hnd hdisj
      have hlidrest : lid ∉ rest.filter (fun l => decide (l ∈ labels)) :=
        (List.nodup_cons.mp hnd).1
      have hndrest : (rest.filter (fun l => decide (l ∈ labels))).Nodup :=
        (List.nodup_cons.mp hnd).2
      have hlidacc : lid ∉ acc := hdisj lid (List.mem_cons_self lid _)
      have hdisj2 : ∀ l ∈ rest.filter (fun l => decide (l ∈ labels)), l ∉ acc ++ [lid] := by
        intro l hl
        simp only [List.mem_append, List.mem_singleton]
        rintro (hla | rfl)
        · exact hdisj l (List.mem_cons_of_mem lid hl) hla
        · exact hlidrest hl
      have hrec := attachLabelsLoop_eq labels rest (acc ++ [lid]) hndrest hdisj2
      simp [attachLabelsLoop, labelGet, h, taskLabelCreate, hlidacc, hrec, hfc]
    · have hfc : (lid :: rest).filter (fun l => decide (l ∈ labels)) =
          rest.filter (fun l => decide (l ∈ labels)) := by
        simp [List.filter_cons, h]
      rw [hfc] at hnd hdisj
      have hrec := attachLabelsLoop_eq labels rest acc hnd hdisj
      simp [attachLabelsLoop, labelGet, h, hrec, hfc]

/-- C10 (amended): when the existing ids among the supplied label_ids are
pairwise distinct, requested label ids that do not exist are silently
skipped (Label.DoesNotExist is caught and the loop continues): create and
update succeed and attach exactly the requested ids that exist, with no
error for the missing ids, and an update without label_ids keeps the
current links; a repeated existing id instead raises an uncaught
IntegrityError (see the counterexample). -/
theorem C10_missing_labels_skipped (labels labelIds current : List Nat)
    (h : (labelIds.filter (fun l => decide (l ∈ labels))).Nodup) :
    taskCreateLabels labels labelIds =
      some (labelIds.filter (fun l => decide (l ∈ labels))) ∧
    taskUpdateLabels labels current (some labelIds) =
      some (labelIds.filter (fun l => decide (l ∈ labels))) ∧
    taskUpdateLabels labels current none = some current := by
  refine ⟨?_, ?_, rfl⟩
  · simpa [taskCreateLabels] using attachLabelsLoop_eq labels labelIds [] h (by simp)
  · simpa [taskUpdateLabels] using attachLabelsLoop_eq labels labelIds [] h (by simp)

/-- C10 witness: with labels 1 and 3 existing, label_ids = [1, 2, 3] (the
missing id 2 is skipped with no error) attaches exactly [1, 3] on create and
on update, and an update without label_ids keeps the current link [7]. -/
theorem C10_missing_labels_skipped_witness :
    taskCreateLabels [1, 3] [1, 2, 3] = some [1, 3] ∧
    taskUpdateLabels [1, 3] [7] (some [1, 2, 3]) = some [1, 3] ∧
    taskUpdateLabels [1, 3] [7] none = some [7] :=
  C10_missing_labels_skipped [1, 3] [1, 2, 3] [7] (by decide)

end TrelloBack

namespace TrelloBack

/-- Unfolding columnMove when get_object finds the column. -/
theorem columnMove_found (cols : List Col) (colId : Nat) (reqPos : Int) (column : Col)
    (h : cols.find? (fun c => c.id == colId) = some column) :
    columnMove cols colId reqPos = columnMoveFound cols column colId reqPos := by
  unfold columnMove
  rw [h]

/-- Unfolding taskMove when get_object finds the task. -/
theorem taskMove_found (cols : List Col) (tasks : List TaskRec) (taskId columnId : Nat)
    (reqPos : Int) (task : TaskRec)
    (h : tasks.find? (fun t => t.id == taskId) = some task) :
    taskMove cols tasks taskId columnId reqPos =
      taskMoveFound cols tasks task taskId columnId reqPos := by
  unfold taskMove
  rw [h]

/-- Unfolding taskMoveFound when validation passes and the column exists. -/
theorem taskMoveFound_col (cols : List Col) (tasks : List TaskRec) (task : TaskRec)
    (taskId columnId : Nat) (reqPos : Int) (newColumn : Col)
    (hp : ¬ reqPos < 0)
    (h : cols.find? (fun c => c.id == columnId) = some newColumn) :
    taskMoveFound cols tasks task taskId columnId reqPos =
      taskMoveWithColumn cols tasks task newColumn taskId reqPos := by
  unfold taskMoveFound
  rw [if_neg hp, h]

/-- C4: for a same-board column move from old position o (the position of
the column found by get_object) to target position n, every same-board
sibling with o > position >= n shifts +1 when n < o, every same-board
sibling with o < position <= n shifts -1 when n > o, and the moved column
ends at position n. -/
theorem C4_same_container_column_move (cols : List Col) (colId n : Nat) (column c : Col)
    (hfind : cols.find? (fun x => x.id == colId) = some column)
    (hc : c ∈ cols) (hcne : c.id ≠ colId) (hb : c.board = column.board) :
    (n < column.pos ∧ n ≤ c.pos ∧ c.pos < column.pos →
      { c with pos := c.pos + 1 } ∈ (columnMove cols colId (n : Int)).cols) ∧
    (column.pos < n ∧ column.pos < c.pos ∧ c.pos ≤ n →
      { c with pos := c.pos - 1 } ∈ (columnMove cols colId (n : Int)).cols) ∧
    { column with pos := n } ∈ (columnMove cols colId (n : Int)).cols := by
  have hcolmem : column ∈ cols := List.mem_of_find?_eq_some hfind
  have hcolid : column.id = colId := by
    have h := List.find?_some hfind
    simpa using h
  rw [columnMove_found cols colId (n : Int) column hfind]
  have h0 : ¬ ((n : Int) < 0) := not_lt.mpr (Int.natCast_nonneg n)
  simp only [columnMoveFound, if_neg h0, Int.toNat_natCast]
  refine ⟨?_, ?_, ?_⟩
  · rintro ⟨h1, h2, h3⟩
    rw [if_pos h1]
    exact List.mem_map.mpr ⟨_, List.mem_map.mpr ⟨c, hc, rfl⟩, by simp [hb, h2, h3, hcne]⟩
  · rintro ⟨h1, h2, h3⟩
    rw [if_neg (not_lt.mpr h1.le)]
    exact List.mem_map.mpr ⟨_, List.mem_map.mpr ⟨c, hc, rfl⟩, by simp [hb, h2, h3, hcne]⟩
  · by_cases hlt : n < column.pos
    · rw [if_pos hlt]
      exact List.mem_map.mpr ⟨_, List.mem_map.mpr ⟨column, hcolmem, rfl⟩, by simp [hcolid]⟩
    · rw [if_neg hlt]
      exact List.mem_map.mpr ⟨_, List.mem_map.mpr ⟨column, hcolmem, rfl⟩, by simp [hcolid]⟩

/-- C4 witness: columns A@0 (id 1), B@1 (id 2), Cc@2 (id 3) on board 0;
moving column 1 to position 2 shifts the sibling B down to 0 and puts A
at 2. -/
theorem C4_same_container_column_move_witness :
    (⟨2, "B", 0, 0⟩ : Col) ∈
      (columnMove [⟨1, "A", 0, 0⟩, ⟨2, "B", 0, 1⟩, ⟨3, "Cc", 0, 2⟩] 1 (2 : Int)).cols ∧
    (⟨1, "A", 0, 2⟩ : Col) ∈
      (columnMove [⟨1, "A", 0, 0⟩, ⟨2, "B", 0, 1⟩, ⟨3, "Cc", 0, 2⟩] 1 (2 : Int)).cols :=
  ⟨(C4_same_container_column_move [⟨1, "A", 0, 0⟩, ⟨2, "B", 0, 1⟩, ⟨3, "Cc", 0, 2⟩] 1 2
      ⟨1, "A", 0, 0⟩ ⟨2, "B", 0, 1⟩ rfl (by decide) (by decide) rfl).2.1
      ⟨by decide, by decide, by decide⟩,
   (C4_same_container_column_move [⟨1, "A", 0, 0⟩, ⟨2, "B", 0, 1⟩, ⟨3, "Cc", 0, 2⟩] 1 2
      ⟨1, "A", 0, 0⟩ ⟨2, "B", 0, 1⟩ rfl (by decide) (by decide) rfl).2.2⟩

/-- C5 (amended): a negative requested position is rejected by the move
serializers (min_value=0) as a validation error, with every position, the
moved item, and the log left untouched, for both column moves and task
moves. No upper bound is checked, so an over-bound same-container target is
accepted and applied (see the counterexample). -/
theorem C5_negative_position_rejected (cols : List Col) (tasks : List TaskRec)
    (colId taskId cid : Nat) (p : Int) (column : Col) (task : TaskRec)
    (hp : p < 0)
    (hc : cols.find? (fun x => x.id == colId) = some column)
    (ht : tasks.find? (fun x => x.id == taskId) = some task) :
    columnMove cols colId p = ⟨MoveOutcome.validationError, cols, []⟩ ∧
    taskMove cols tasks taskId cid p = ⟨MoveOutcome.validationError, tasks, []⟩ := by
  constructor
  · rw [columnMove_found cols colId p column hc]
    simp [columnMoveFound, hp]
  · rw [taskMove_found cols tasks taskId cid p task ht]
    simp [taskMoveFound, hp]

/-- C5 witness: requested position -1 is rejected with no mutation. -/
theorem C5_negative_position_rejected_witness :
    columnMove [⟨1, "A", 0, 0⟩] 1 (-1) =
      ⟨MoveOutcome.validationError, [⟨1, "A", 0, 0⟩], []⟩ ∧
    taskMove [⟨1, "A", 0, 0⟩] [⟨1, "T1", 1, 0⟩] 1 1 (-1) =
      ⟨MoveOutcome.validationError, [⟨1, "T1", 1, 0⟩], []⟩ :=
  C5_negative_position_rejected [⟨1, "A", 0, 0⟩] [⟨1, "T1", 1, 0⟩] 1 1 1 (-1)
    ⟨1, "A", 0, 0⟩ ⟨1, "T1", 1, 0⟩ (by decide) rfl rfl

end TrelloBack

namespace TrelloBack

/-- C6 (amended): on a successful cross-column task move exactly one
activity-log entry is appended, recording the task id, title, source column
title, destination column title, the position held before the move, and the
new position (request + 1); a successful same-column task move appends no
entry at all; a successful column move appends exactly one entry recording
only the column title and positions — no column id — and its from_position
field holds the already-updated new position, not the position held before
the move. -/
theorem C6_move_logging (cols : List Col) (tasks : List TaskRec)
    (taskId cid colId n : Nat) (task : TaskRec) (newColumn oldCol column : Col)
    (ht : tasks.find? (fun x => x.id == taskId) = some task)
    (hnc : cols.find? (fun x => x.id == cid) = some newColumn)
    (hoc : cols.find? (fun x => x.id == task.column) = some oldCol)
    (hcol : cols.find? (fun x => x.id == colId) = some column) :
    (task.column ≠ newColumn.id →
      (taskMove cols tasks taskId cid (n : Int)).log =
        [⟨"move_task", some task.id, task.title, some oldCol.title, some newColumn.title,
          some task.pos, some (n + 1)⟩]) ∧
    (task.column = newColumn.id →
      (taskMove cols tasks taskId cid (n : Int)).log = []) ∧
    (columnMove cols colId (n : Int)).log =
      [⟨"move_column", none, column.title, none, none, some n, some n⟩] := by
  have h0 : ¬ ((n : Int) < 0) := not_lt.mpr (Int.natCast_nonneg n)
  refine ⟨?_, ?_, ?_⟩
  · intro hne
    rw [taskMove_found cols tasks taskId cid (n : Int) task ht,
        taskMoveFound_col cols tasks task taskId cid (n : Int) newColumn h0 hnc]
    simp [taskMoveWithColumn, hne, columnTitleOf, hoc, Int.toNat_natCast]
  · intro heq
    rw [taskMove_found cols tasks taskId cid (n : Int) task ht,
        taskMoveFound_col cols tasks task taskId cid (n : Int) newColumn h0 hnc]
    simp [taskMoveWithColumn, heq]
  · rw [columnMove_found cols colId (n : Int) column hcol]
    simp [columnMoveFound, h0, Int.toNat_natCast]

/-- C6 witness: a cross-column move of task 1 from column A to column B at
request position 0 logs one entry with the old position 0 and the new
position 1, and a column move of column A to position 0 logs one entry whose
from_position equals the new position. -/
theorem C6_move_logging_witness :
    (taskMove [⟨1, "A", 0, 0⟩, ⟨2, "B", 0, 1⟩] [⟨1, "T1", 1, 0⟩, ⟨2, "T2", 2, 0⟩]
        1 2 ((0 : Nat) : Int)).log =
      [⟨"move_task", some 1, "T1", some "A", some "B", some 0, some 1⟩] ∧
    (columnMove [⟨1, "A", 0, 0⟩, ⟨2, "B", 0, 1⟩] 1 ((0 : Nat) : Int)).log =
      [⟨"move_column", none, "A", none, none, some 0, some 0⟩] :=
  ⟨(C6_move_logging [⟨1, "A", 0, 0⟩, ⟨2, "B", 0, 1⟩] [⟨1, "T1", 1, 0⟩, ⟨2, "T2", 2, 0⟩]
      1 2 1 0 ⟨1, "T1", 1, 0⟩ ⟨2, "B", 0, 1⟩ ⟨1, "A", 0, 0⟩ ⟨1, "A", 0, 0⟩
      rfl rfl rfl rfl).1 (by decide),
   (C6_move_logging [⟨1, "A", 0, 0⟩, ⟨2, "B", 0, 1⟩] [⟨1, "T1", 1, 0⟩, ⟨2, "T2", 2, 0⟩]
      1 2 1 0 ⟨1, "T1", 1, 0⟩ ⟨2, "B", 0, 1⟩ ⟨1, "A", 0, 0⟩ ⟨1, "A", 0, 0⟩
      rfl rfl rfl rfl).2.2⟩

/-- C7 (amended): a task-move request naming a column id for which no column
exists is rejected by TaskMoveSerializer.validate_column_id as a validation
error (HTTP 400) — not by the view's not-found branch, which validation
makes unreachable — and no task position, sibling position, or column
assignment is mutated, and no log entry is written. -/
theorem C7_missing_column_rejected (cols : List Col) (tasks : List TaskRec)
    (taskId cid : Nat) (p : Int) (task : TaskRec)
    (ht : tasks.find? (fun x => x.id == taskId) = some task)
    (hp : 0 ≤ p)
    (hcol : cols.find? (fun c => c.id == cid) = none) :
    taskMove cols tasks taskId cid p = ⟨MoveOutcome.validationError, tasks, []⟩ := by
  rw [taskMove_found cols tasks taskId cid p task ht]
  simp [taskMoveFound, not_lt.mpr hp, hcol]

/-- C7 witness: with no columns at all, moving task 1 to column 99 yields the
validation error and leaves the single task untouched. -/
theorem C7_missing_column_rejected_witness :
    taskMove [] [⟨1, "T1", 1, 0⟩] 1 99 0 =
      ⟨MoveOutcome.validationError, [⟨1, "T1", 1, 0⟩], []⟩ :=
  C7_missing_column_rejected [] [⟨1, "T1", 1, 0⟩] 1 99 0 ⟨1, "T1", 1, 0⟩ rfl (by decide) rfl

/-- C8: the delete handlers perform no compaction: deleting a column leaves
every remaining column row (hence its position) unchanged and every task of
other columns unchanged, and deleting a task leaves every remaining task row
unchanged, so the gap at the removed position stays. -/
theorem C8_delete_no_compaction (cols : List Col) (tasks : List TaskRec)
    (colId taskId : Nat) (c : Col) (t u : TaskRec)
    (hc : c ∈ cols) (hcne : c.id ≠ colId)
    (ht : t ∈ tasks) (htcol : t.column ≠ colId)
    (hu : u ∈ tasks) (hune : u.id ≠ taskId) :
    c ∈ (columnDestroy cols tasks colId).cols ∧
    t ∈ (columnDestroy cols tasks colId).tasks ∧
    u ∈ (taskDestroy tasks taskId).tasks := by
  refine ⟨?_, ?_, ?_⟩
  · unfold columnDestroy
    cases hfind : cols.find? (fun x => x.id == colId) with
    | none => exact hc
    | some col => simp [List.mem_filter, hc, bne_iff_ne, hcne]
  · unfold columnDestroy
    cases hfind : cols.find? (fun x => x.id == colId) with
    | none => exact ht
    | some col => simp [List.mem_filter, ht, bne_iff_ne, htcol]
  · unfold taskDestroy
    cases hfind : tasks.find? (fun x => x.id == taskId) with
    | none => exact hu
    | some task => simp [List.mem_filter, hu, bne_iff_ne, hune]

/-- C8 witness: deleting column 1 (and its tasks) keeps column B at
position 1 and task T3 of column 2 at position 0; deleting task 1 keeps task
T2 at position 1 — the gaps at position 0 are not compacted. -/
theorem C8_delete_no_compaction_witness :
    (⟨2, "B", 0, 1⟩ : Col) ∈
      (columnDestroy [⟨1, "A", 0, 0⟩, ⟨2, "B", 0, 1⟩]
        [⟨1, "T1", 1, 0⟩, ⟨2, "T2", 1, 1⟩, ⟨3, "T3", 2, 0⟩] 1).cols ∧
    (⟨3, "T3", 2, 0⟩ : TaskRec) ∈
      (columnDestroy [⟨1, "A", 0, 0⟩, ⟨2, "B", 0, 1⟩]
        [⟨1, "T1", 1, 0⟩, ⟨2, "T2", 1, 1⟩, ⟨3, "T3", 2, 0⟩] 1).tasks ∧
    (⟨2, "T2", 1, 1⟩ : TaskRec) ∈
      (taskDestroy [⟨1, "T1", 1, 0⟩, ⟨2, "T2", 1, 1⟩, ⟨3, "T3", 2, 0⟩] 1).tasks :=
  C8_delete_no_compaction [⟨1, "A", 0, 0⟩, ⟨2, "B", 0, 1⟩]
    [⟨1, "T1", 1, 0⟩, ⟨2, "T2", 1, 1⟩, ⟨3, "T3", 2, 0⟩] 1 1
    ⟨2, "B", 0, 1⟩ ⟨3, "T3", 2, 0⟩ ⟨2, "T2", 1, 1⟩
    (by decide) (by decide) (by decide) (by decide) (by decide) (by decide)

end TrelloBack
